import Mathlib

/-!
Verification development for the TradePulse market-data backend
(`src/backend/main.py`).

Embedding conventions:
* Python floats are idealized as exact rationals `ℚ` for prices, quantities
  and portfolio balances; the analytics (`calculate_anomaly`) needs a square
  root (NumPy's population standard deviation), so its results live in `ℝ`.
* Python `round(x, 2)` is modelled as rounding `100*x` to the nearest integer
  and dividing by 100 (Mathlib's `round`, half away from the floor; the
  half-to-even tie behaviour of Python never arises at the inputs considered).
* Stateful code is embedded as explicit state-passing functions; an exception
  escaping a block is an explicit error value of the result type.
* The wall-clock timestamp fields of payloads and trade records are omitted:
  no claim mentions them.
-/

/-! ### Analytics engine (`calculate_anomaly`, main.py lines 73-89) -/

/-- Arithmetic mean (`np.mean`) of a list of prices. -/
def mean (w : List ℚ) : ℚ := w.sum / (w.length : ℚ)

/-- Population variance, the square of `np.std`. -/
def variance (w : List ℚ) : ℚ :=
  ((w.map (fun x => (x - mean w) ^ 2)).sum) / (w.length : ℚ)

/-- NumPy `np.std(data)`: the population standard deviation. -/
noncomputable def std_dev (w : List ℚ) : ℝ := Real.sqrt (variance w)

/-- Python `round(x, 2)`. -/
noncomputable def round2 (x : ℝ) : ℝ := ((round (100 * x) : ℤ) : ℝ) / 100

/-- The dict returned by `calculate_anomaly`:
`{"status": ..., "z_score": ..., "mean_price": ...}`. -/
structure Classification where
  status : String
  z_score : ℝ
  mean_price : ℝ

/-- Python `calculate_anomaly(current_price)` (main.py lines 73-89), with the global
`price_history` made an explicit argument. -/
noncomputable def calculate_anomaly (history : List ℚ) (current_price : ℚ) :
    Classification :=
  if history.length < 20 then
    ⟨"CALIBRATING", 0, (current_price : ℝ)⟩
  else if std_dev history = 0 then
    ⟨"STABLE", 0, ((mean history : ℚ) : ℝ)⟩
  else
    let z : ℝ := ((current_price : ℝ) - ((mean history : ℚ) : ℝ)) / std_dev history
    let status : String :=
      if z > 2 then "PUMP_DETECTED 🚀" else if z < -2 then "DUMP_DETECTED 🔻" else "NORMAL"
    ⟨status, round2 z, round2 ((mean history : ℚ) : ℝ)⟩

/-! ### Rolling window (`price_history = deque(maxlen=100)`, main.py line 55) -/

/-- Python `price_history.append(price)` on a `deque(maxlen=100)`: append on the
right, evicting the single oldest (leftmost) entry when full. -/
def window_push (w : List ℚ) (p : ℚ) : List ℚ :=
  if w.length < 100 then w ++ [p] else w.tail ++ [p]

/-- Pushing a whole sequence of prices, oldest first, into an initially
empty window. -/
def window_pushAll (xs : List ℚ) : List ℚ :=
  xs.foldl window_push []

/-! ### Broadcaster (`ConnectionManager`, main.py lines 58-68) -/

/-- A subscriber connection: its identity and whether its transport is
already closed (`send_json` on a closed transport raises). -/
structure Conn where
  id : Nat
  closed : Bool
deriving DecidableEq

/-- Outcome of `ConnectionManager.broadcast`: which subscribers received the
message (in iteration order), whether an exception escaped, and the
`active_connections` list after the call. -/
structure BroadcastResult where
  delivered : List Nat
  raised : Bool
  conns_after : List Conn
deriving DecidableEq

/-- The bare `for connection in self.active_connections: await
connection.send_json(message)` loop: deliveries stop at the first failing
subscriber and the exception propagates. -/
def broadcast_go : List Conn → List Nat × Bool
  | [] => ([], false)
  | c :: rest =>
      if c.closed then ([], true)
      else
        let r := broadcast_go rest
        (c.id :: r.1, r.2)

/-- Method `ConnectionManager.broadcast` (main.py lines 66-68).  The method never
touches `active_connections` itself; removal happens only in `disconnect`,
called from the websocket endpoint's own reader task. -/
def broadcast (conns : List Conn) : BroadcastResult :=
  let r := broadcast_go conns
  ⟨r.1, r.2, conns⟩

/-! ### Feed decoding (`listen_to_crypto_market`, main.py lines 92-123) -/

/-- A JSON value as far as Python's `float(...)` is concerned: a number,
a numeric string (both convert), or anything else (`float` raises). -/
inductive JVal where
  | num (q : ℚ)
  | numStr (q : ℚ)
  | other
deriving DecidableEq

/-- A decoded JSON object: association list of fields. -/
abbrev JObj := List (String × JVal)

/-- Python dict lookup `data[k]` as an `Option` (`none` = `KeyError`). -/
def jlookup (k : String) (o : JObj) : Option JVal :=
  (o.find? (fun kv => kv.1 == k)).map (fun kv => kv.2)

/-- Python `float(v)`: `none` when `float` raises. -/
def jfloat : JVal → Option ℚ
  | .num q => some q
  | .numStr q => some q
  | .other => none

/-- What the body of the read loop does with one parsed JSON object. -/
inductive Decoded where
  | tick (price qty : ℚ)
  | ignored
  | failed
deriving DecidableEq

/-- The field extraction of main.py lines 101-103:
`if "p" in data: price = float(data["p"]); qty = float(data["q"])`.
A missing `"p"` skips the body (`ignored`); a `KeyError` on `"q"` or a
`float` conversion failure raises (`failed`), to be caught by the loop's
`except` clause. -/
def decode_msg (data : JObj) : Decoded :=
  match jlookup "p" data with
  | none => .ignored
  | some pv =>
    match jfloat pv with
    | none => .failed
    | some price =>
      match jlookup "q" data with
      | none => .failed
      | some qv =>
        match jfloat qv with
        | none => .failed
        | some qty => .tick price qty

/-- The payload dict assembled at main.py lines 104-118 (timestamp omitted). -/
structure Payload where
  price : ℚ
  stats : Classification
  volume : ℚ
  is_whale : Bool

/-- Assembling the enriched event for a tick, given the window contents
*after* the tick's price was appended (the code appends to `price_history`
before calling `calculate_anomaly`). -/
noncomputable def make_payload (history : List ℚ) (price qty : ℚ) : Payload :=
  let volume := price * qty
  ⟨price, calculate_anomaly history price, volume, decide (volume > 50000)⟩

/-- One `ws.recv()` outcome offered by the upstream: a parsed JSON object, a
message on which `json.loads` (or the `"p" in data` test) raises, or the
connection dropping (`recv` raises `ConnectionClosed`). -/
inductive Upstream where
  | msg (data : JObj)
  | badMsg
  | dropped

/-- The externally visible effect of one iteration of the read loop. -/
inductive LoopAction where
  | published (p : Payload)
  | ignored
  | backoff

/-- State of `listen_to_crypto_market`: the rolling window, the subscriber
set, and whether the single websocket opened before the loop is still open.
`websockets.connect` is executed once, outside the `while True`; nothing in
the loop can reopen it. -/
structure LoopState where
  history : List ℚ
  conns : List Conn
  connOpen : Bool

/-- One iteration of the `while True` loop (main.py lines 96-123).  On a
closed connection `ws.recv()` raises immediately and the `except` clause
logs and sleeps 5 s (`backoff`); the same `except` clause also absorbs
decode failures and exceptions escaping `broadcast`. -/
noncomputable def loop_step (st : LoopState) (up : Upstream) : LoopState × LoopAction :=
  if st.connOpen then
    match up with
    | .dropped => ({ st with connOpen := false }, .backoff)
    | .badMsg => (st, .backoff)
    | .msg data =>
      match decode_msg data with
      | .ignored => (st, .ignored)
      | .failed => (st, .backoff)
      | .tick price qty =>
        let history2 := window_push st.history price
        let payload := make_payload history2 price qty
        let b := broadcast st.conns
        if b.raised then ({ st with history := history2 }, .backoff)
        else ({ st with history := history2 }, .published payload)
  else (st, .backoff)

/-- Running the read loop over a finite prefix of upstream events. -/
noncomputable def loop_run (st : LoopState) : List Upstream → LoopState × List LoopAction
  | [] => (st, [])
  | u :: us =>
    let s1 := loop_step st u
    let s2 := loop_run s1.1 us
    (s2.1, s1.2 :: s2.2)

/-! ### Trade execution (`execute_trade`, main.py lines 160-187) -/

/-- The in-memory portfolio (main.py line 54). -/
structure Portfolio where
  usd : ℚ
  btc : ℚ
deriving DecidableEq

/-- A persisted `TradeRecord` row (timestamp omitted; the serial primary key
is modelled by the row's position). -/
structure TradeRow where
  type : String
  price : ℚ
  amount : ℚ
deriving DecidableEq

/-- The JSON body returned on success. -/
structure TradeResponse where
  status : String
  trade_id : Nat
deriving DecidableEq

deriving instance DecidableEq for Except

/-- Result of a call to the endpoint: the HTTP outcome
(`error` = `HTTPException(status_code, detail)`), plus the portfolio and the
trades table after the call. -/
structure ExecOutcome where
  result : Except (Nat × String) TradeResponse
  portfolio : Portfolio
  trades : List TradeRow
deriving DecidableEq

/-- Lines 179-187: persist the record and return
`{"status": "executed", "trade_id": new_trade.id, ...}`.  The database's
serial id is modelled as the new row count. -/
def persist_trade (ty : String) (price amount : ℚ) (pf : Portfolio)
    (trades : List TradeRow) : ExecOutcome :=
  ⟨.ok ⟨"executed", trades.length + 1⟩, pf, trades ++ [⟨ty, price, amount⟩]⟩

/-- Endpoint `execute_trade(type, price)` (main.py lines 160-187), with the global
portfolio and the trades table made explicit.  `HTTPException` is raised
before any mutation; a type other than `"BUY"`/`"SELL"` falls through both
branches straight to persistence. -/
def execute_trade (ty : String) (price : ℚ) (pf : Portfolio)
    (trades : List TradeRow) : ExecOutcome :=
  let amount : ℚ := 1 / 10
  if ty = "BUY" then
    let cost := price * amount
    if pf.usd < cost then ⟨.error (400, "Insufficient Funds"), pf, trades⟩
    else persist_trade ty price amount ⟨pf.usd - cost, pf.btc + amount⟩ trades
  else if ty = "SELL" then
    if pf.btc < amount then ⟨.error (400, "Insufficient BTC"), pf, trades⟩
    else persist_trade ty price amount ⟨pf.usd + price * amount, pf.btc - amount⟩ trades
  else persist_trade ty price amount pf trades

/-! ## Rolling window: C7 -/

lemma window_pushAll_concat (xs : List ℚ) (x : ℚ) :
    window_pushAll (xs ++ [x]) = window_push (window_pushAll xs) x := by
  simp [window_pushAll, List.foldl_append]

lemma window_pushAll_eq (xs : List ℚ) :
    window_pushAll xs = xs.drop (xs.length - 100) := by
  induction xs using List.reverseRecOn with
  | nil => simp [window_pushAll]
  | append_singleton xs x ih =>
    rw [window_pushAll_concat, ih, window_push]
    by_cases h : xs.length < 100
    · have h0 : xs.length - 100 = 0 := by omega
      have h1 : (xs ++ [x]).length - 100 = 0 := by
        simp only [List.length_append, List.length_singleton]; omega
      simp only [h0, h1, List.drop_zero]
      rw [if_pos h]
    · rw [if_neg (by rw [List.length_drop]; omega)]
      rw [List.tail_drop]
      have h2 : (xs ++ [x]).length - 100 = xs.length - 100 + 1 := by
        simp only [List.length_append, List.length_singleton]; omega
      rw [h2, List.drop_append_of_le_length (by omega)]

/-- C7: every sequence of pushed prices leaves the window holding at most
100 entries, namely exactly the (up to) 100 most recently pushed prices in
arrival order — the suffix of the pushed sequence past `length - 100`, so
each push past capacity evicts exactly the single oldest entry. -/
theorem rolling_window_bounded_suffix (xs : List ℚ) :
    (window_pushAll xs).length ≤ 100 ∧
      window_pushAll xs = xs.drop (xs.length - 100) := by
  refine ⟨?_, window_pushAll_eq xs⟩
  rw [window_pushAll_eq, List.length_drop]
  omega

/-! ## Whale flag: C8 -/

/-- C8: the published event's `is_whale` flag is `true` iff the tick's
notional volume `price * qty` strictly exceeds 50000; in particular volume
60000 gives `true` while volumes 49999 and exactly 50000 give `false`. -/
theorem whale_flag_boundary :
    (∀ (h : List ℚ) (price qty : ℚ),
        (make_payload h price qty).is_whale = true ↔ price * qty > 50000) ∧
      (make_payload [] 60000 1).is_whale = true ∧
      (make_payload [] 49999 1).is_whale = false ∧
      (make_payload [] 50000 1).is_whale = false := by
  refine ⟨fun h price qty => ?_, ?_, ?_, ?_⟩
  · simp [make_payload]
  · norm_num [make_payload]
  · norm_num [make_payload]
  · norm_num [make_payload]

/-! ## Trade endpoint: C9 and C10 -/

/-- C9: a call to `execute_trade` that fails its precondition check — a BUY
with `usd < price * 0.1` or a SELL with `btc < 0.1` — returns an HTTP 400
error while leaving the portfolio unchanged and persisting no trade record. -/
theorem trade_precondition_failure_mutates_nothing (ty : String) (price : ℚ)
    (pf : Portfolio) (trades : List TradeRow)
    (h : (ty = "BUY" ∧ pf.usd < price * (1 / 10)) ∨
         (ty = "SELL" ∧ pf.btc < 1 / 10)) :
    ∃ detail, execute_trade ty price pf trades =
      ⟨.error (400, detail), pf, trades⟩ := by
  rcases h with ⟨hty, hlt⟩ | ⟨hty, hlt⟩
  · subst hty
    refine ⟨"Insufficient Funds", ?_⟩
    simp only [execute_trade, reduceIte]
    rw [if_pos hlt]
  · subst hty
    refine ⟨"Insufficient BTC", ?_⟩
    simp only [execute_trade]
    rw [if_neg (show ¬("SELL" : String) = "BUY" by decide), if_pos trivial,
      if_pos hlt]

/-- Witness for C9: a BUY of 0.1 BTC at price 2000000 against a portfolio of
100000 USD fails the funds check, yields HTTP 400, and changes nothing. -/
theorem trade_precondition_failure_witness :
    (("BUY" = "BUY" ∧ (Portfolio.mk 100000 0).usd < 2000000 * (1 / 10)) ∨
      ("BUY" = "SELL" ∧ (Portfolio.mk 100000 0).btc < 1 / 10)) ∧
      ∃ detail, execute_trade "BUY" 2000000 ⟨100000, 0⟩ [] =
        ⟨.error (400, detail), ⟨100000, 0⟩, []⟩ := by
  have hp : ("BUY" = "BUY" ∧ (Portfolio.mk 100000 0).usd < 2000000 * (1 / 10)) ∨
      ("BUY" = "SELL" ∧ (Portfolio.mk 100000 0).btc < 1 / 10) :=
    Or.inl ⟨rfl, by norm_num⟩
  exact ⟨hp, trade_precondition_failure_mutates_nothing "BUY" 2000000 ⟨100000, 0⟩ [] hp⟩

/-- C10: a call to `execute_trade` with a type that is neither `"BUY"` nor
`"SELL"` leaves the portfolio unchanged, yet still persists a trade record
carrying the unknown type string and returns status `"executed"` with a
fresh trade id. -/
theorem unknown_trade_type_persisted_without_portfolio_change (ty : String)
    (price : ℚ) (pf : Portfolio) (trades : List TradeRow)
    (h1 : ty ≠ "BUY") (h2 : ty ≠ "SELL") :
    execute_trade ty price pf trades =
      ⟨.ok ⟨"executed", trades.length + 1⟩, pf, trades ++ [⟨ty, price, 1 / 10⟩]⟩ := by
  simp [execute_trade, h1, h2, persist_trade]

/-- Witness for C10: a trade of type `"HOLD"` is persisted and reported as
executed while the portfolio stays exactly as it was. -/
theorem unknown_trade_type_witness :
    ("HOLD" : String) ≠ "BUY" ∧ ("HOLD" : String) ≠ "SELL" ∧
      execute_trade "HOLD" 5 ⟨1, 2⟩ [] =
        ⟨.ok ⟨"executed", 1⟩, ⟨1, 2⟩, [⟨"HOLD", 5, 1 / 10⟩]⟩ :=
  ⟨by decide, by decide, unknown_trade_type_persisted_without_portfolio_change
    "HOLD" 5 ⟨1, 2⟩ [] (by decide) (by decide)⟩

/-! ## Broadcaster: C1 -/

lemma broadcast_go_spec (conns : List Conn) :
    broadcast_go conns =
      ((conns.takeWhile (fun c => !c.closed)).map Conn.id,
        conns.any (fun c => c.closed)) := by
  induction conns with
  | nil => rfl
  | cons c rest ih =>
    cases hc : c.closed
    · simp [broadcast_go, hc, ih, List.takeWhile_cons]
    · simp [broadcast_go, hc, List.takeWhile_cons]

/-- C1 counterexample: publishing to the live set `[#1 open, #2 closed,
#3 open]` delivers only to #1 — #3 never receives the event — the exception
escapes `broadcast`, and the failed subscriber #2 is still in the live set
afterwards.  This refutes the claimed failure isolation at a concrete input. -/
theorem broadcast_failure_aborts_and_keeps_failed_conn :
    3 ∉ (broadcast [⟨1, false⟩, ⟨2, true⟩, ⟨3, false⟩]).delivered ∧
      (broadcast [⟨1, false⟩, ⟨2, true⟩, ⟨3, false⟩]).raised = true ∧
      (⟨2, true⟩ : Conn) ∈ (broadcast [⟨1, false⟩, ⟨2, true⟩, ⟨3, false⟩]).conns_after ∧
      (broadcast [⟨1, false⟩, ⟨2, true⟩, ⟨3, false⟩]).delivered = [1] := by
  decide

/-- C1 amended: `broadcast` delivers the event only to the longest prefix of
open subscribers before the first failing one, raises out of `publish`
whenever any subscriber's transport is closed, and never removes any
subscriber from the live set itself. -/
theorem broadcast_delivers_prefix_and_raises (conns : List Conn) :
    broadcast conns =
      ⟨(conns.takeWhile (fun c => !c.closed)).map Conn.id,
        conns.any (fun c => c.closed), conns⟩ := by
  simp [broadcast, broadcast_go_spec]

/-! ## Feed connector: C2 -/

lemma loop_run_closed_conn (st : LoopState) (h : st.connOpen = false)
    (us : List Upstream) :
    loop_run st us = (st, us.map fun _ => LoopAction.backoff) := by
  induction us with
  | nil => simp [loop_run]
  | cons u us ih =>
    simp [loop_run, loop_step, h, ih]

/-- C2 (code bug): a connection drop is caught and puts the connector into
the closed-connection state, but the connector never re-establishes the
transport: `websockets.connect` sits outside the `while True`, so from the
closed state every further iteration — whatever the upstream would offer,
including well-formed tick messages — raises on `recv`, is caught, logged
and followed by the 5-second sleep, and retries on the same dead socket;
no tick is ever processed again and the state never changes. -/
theorem feed_never_reconnects_after_drop :
    loop_step ⟨[], [⟨1, false⟩], true⟩ .dropped =
      (⟨[], [⟨1, false⟩], false⟩, .backoff) ∧
      ∀ us : List Upstream,
        loop_run ⟨[], [⟨1, false⟩], false⟩ us =
          (⟨[], [⟨1, false⟩], false⟩, us.map fun _ => LoopAction.backoff) :=
  ⟨rfl, fun us => loop_run_closed_conn _ rfl us⟩

/-! ## Ingestion loop atomicity: C3 -/

/-- C3 counterexample: with a single subscriber whose transport is closed,
a well-formed tick is processed partially — the window is updated with its
price, yet the broadcast raises before any delivery, so the enriched event
is published to nobody; the loop is not shutting down (it stays in its
steady state and moves on to the next iteration after the error backoff). -/
theorem tick_processed_partially_on_publish_failure :
    (loop_step ⟨[], [⟨2, true⟩], true⟩
        (.msg [("p", .num 100), ("q", .num 1)])).1.history = [100] ∧
      (loop_step ⟨[], [⟨2, true⟩], true⟩
        (.msg [("p", .num 100), ("q", .num 1)])).2 = LoopAction.backoff ∧
      (loop_step ⟨[], [⟨2, true⟩], true⟩
        (.msg [("p", .num 100), ("q", .num 1)])).1.connOpen = true ∧
      (broadcast [⟨2, true⟩]).delivered = [] :=
  ⟨rfl, rfl, rfl, rfl⟩

/-- C3 amended: for a decoded tick the window update and the classification
always complete together, and the enriched event is published exactly when
`broadcast` raises no delivery error; when it does raise, the window retains
the tick's price while the event goes unpublished. -/
theorem tick_publish_atomic_unless_broadcast_raises (st : LoopState)
    (data : JObj) (price qty : ℚ) (hopen : st.connOpen = true)
    (hdec : decode_msg data = .tick price qty) :
    (loop_step st (.msg data)).1.history = window_push st.history price ∧
      ((loop_step st (.msg data)).2 =
          .published (make_payload (window_push st.history price) price qty) ↔
        (broadcast st.conns).raised = false) := by
  simp only [loop_step, hopen, hdec]
  cases hb : (broadcast st.conns).raised
  · simp [hb]
  · simp [hb]

/-- Witness for the C3 amended theorem: one open subscriber, empty window,
tick at price 100 and quantity 1. -/
theorem tick_publish_atomic_witness :
    (⟨[], [⟨1, false⟩], true⟩ : LoopState).connOpen = true ∧
      decode_msg [("p", .num 100), ("q", .num 1)] = .tick 100 1 ∧
      ((loop_step ⟨[], [⟨1, false⟩], true⟩
          (.msg [("p", .num 100), ("q", .num 1)])).1.history =
        window_push [] 100 ∧
        ((loop_step ⟨[], [⟨1, false⟩], true⟩
            (.msg [("p", .num 100), ("q", .num 1)])).2 =
            .published (make_payload (window_push [] 100) 100 1) ↔
          (broadcast [⟨1, false⟩]).raised = false)) :=
  ⟨rfl, rfl, tick_publish_atomic_unless_broadcast_raises _ _ _ _ rfl rfl⟩

/-! ## Feed decoding: C4 -/

/-- C4 counterexample: a JSON object with a parseable price field but no
quantity field is not silently ignored — the `KeyError` on `data["q"]` makes
it take the error path (logged, 5-second backoff), refuting the claim that
every shape other than price-and-quantity is ignored without being treated
as an error. -/
theorem price_without_quantity_hits_error_path :
    decode_msg [("p", JVal.num 100)] = Decoded.failed ∧
      Decoded.failed ≠ Decoded.ignored ∧
      loop_step ⟨[], [], true⟩ (.msg [("p", JVal.num 100)]) =
        (⟨[], [], true⟩, LoopAction.backoff) :=
  ⟨rfl, by decide, rfl⟩

/-- C4 amended: a message is decoded into a tick iff it has a price field
parseable as float and a quantity field parseable as float; it is silently
ignored iff it has no price field at all.  Everything else — price present
but unparseable, quantity missing or unparseable — is an error handled by
the catch-log-backoff path, not a silent ignore. -/
theorem decode_processed_iff_both_fields_parse (data : JObj) :
    (decode_msg data = .ignored ↔ jlookup "p" data = none) ∧
      (∀ price qty, decode_msg data = .tick price qty ↔
        ∃ pv qv, jlookup "p" data = some pv ∧ jfloat pv = some price ∧
          jlookup "q" data = some qv ∧ jfloat qv = some qty) := by
  rcases hp : jlookup "p" data with _ | pv
  · refine ⟨by simp [decode_msg, hp], fun price qty => ?_⟩
    simp [decode_msg, hp]
  · rcases hf : jfloat pv with _ | price0
    · refine ⟨by simp [decode_msg, hp, hf], fun price qty => ?_⟩
      simp [decode_msg, hp, hf]
    · rcases hq : jlookup "q" data with _ | qv
      · refine ⟨by simp [decode_msg, hp, hf, hq], fun price qty => ?_⟩
        simp [decode_msg, hp, hf, hq]
      · rcases hg : jfloat qv with _ | qty0
        · refine ⟨by simp [decode_msg, hp, hf, hq, hg], fun price qty => ?_⟩
          simp [decode_msg, hp, hf, hq, hg]
        · refine ⟨by simp [decode_msg, hp, hf, hq, hg], fun price qty => ?_⟩
          simp [decode_msg, hp, hf, hq, hg]

/-! ## Anomaly classifier: C5 and C6 -/

lemma calculate_anomaly_nondegenerate (w : List ℚ) (p : ℚ)
    (h1 : ¬ w.length < 20) (h2 : std_dev w ≠ 0) :
    calculate_anomaly w p =
      ⟨(if ((p : ℝ) - (mean w : ℝ)) / std_dev w > 2 then "PUMP_DETECTED 🚀"
        else if ((p : ℝ) - (mean w : ℝ)) / std_dev w < -2 then "DUMP_DETECTED 🔻"
        else "NORMAL"),
        round2 (((p : ℝ) - (mean w : ℝ)) / std_dev w),
        round2 ((mean w : ℝ))⟩ := by
  unfold calculate_anomaly
  rw [if_neg h1, if_neg h2]

/-- A 20-price window with mean 100 and population standard deviation 10. -/
def pumpWindow : List ℚ := List.replicate 10 110 ++ List.replicate 10 90

lemma mean_pumpWindow : mean pumpWindow = 100 := by
  rw [mean]
  simp only [pumpWindow, List.sum_append, List.sum_replicate, List.length_append,
    List.length_replicate, nsmul_eq_mul]
  push_cast
  norm_num

lemma variance_pumpWindow : variance pumpWindow = 100 := by
  rw [variance, mean_pumpWindow]
  simp only [pumpWindow, List.map_append, List.map_replicate, List.sum_append,
    List.sum_replicate, List.length_append, List.length_replicate, nsmul_eq_mul]
  push_cast
  norm_num

lemma std_dev_pumpWindow : std_dev pumpWindow = 10 := by
  rw [std_dev, variance_pumpWindow,
    show ((100 : ℚ) : ℝ) = (10 : ℝ) ^ 2 by norm_num]
  exact Real.sqrt_sq (by norm_num)

lemma round2_eval_2004 : round2 ((501 : ℝ) / 250) = 2 := by
  simp only [round2]
  rw [show (100 : ℝ) * (501 / 250) = 1002 / 5 by norm_num]
  have h : round ((1002 : ℝ) / 5) = 200 := by
    rw [round_eq]
    have h2 : ⌊(1002 : ℝ) / 5 + 1 / 2⌋ = 200 := by
      apply Int.floor_eq_iff.mpr
      constructor <;> norm_num
    exact h2
  rw [h]
  norm_num

lemma round2_hundred : round2 (((100 : ℚ) : ℝ)) = 100 := by
  simp only [round2]
  rw [show (100 : ℝ) * ((100 : ℚ) : ℝ) = ((10000 : ℤ) : ℝ) by push_cast; norm_num,
    round_intCast]
  norm_num

/-- C5: with 20 or more prices and nonzero standard deviation the classifier
compares the full-precision z-score against the thresholds and rounds only
the reported `z_score` and `mean_price`.  The concrete instance exhibits the
order of operations: at z = 2.004 the status is already `PUMP_DETECTED`
while the reported (rounded) `z_score` is exactly 2, which does not exceed
the threshold — so the comparison necessarily happened before rounding. -/
theorem zscore_compared_before_rounding :
    (∀ (w : List ℚ) (p : ℚ), 20 ≤ w.length → std_dev w ≠ 0 →
      calculate_anomaly w p =
        ⟨(if ((p : ℝ) - (mean w : ℝ)) / std_dev w > 2 then "PUMP_DETECTED 🚀"
          else if ((p : ℝ) - (mean w : ℝ)) / std_dev w < -2 then "DUMP_DETECTED 🔻"
          else "NORMAL"),
          round2 (((p : ℝ) - (mean w : ℝ)) / std_dev w),
          round2 ((mean w : ℝ))⟩) ∧
      calculate_anomaly pumpWindow (12004 / 100) = ⟨"PUMP_DETECTED 🚀", 2, 100⟩ := by
  have hlen : ¬ pumpWindow.length < 20 := by decide
  have hne : std_dev pumpWindow ≠ 0 := by rw [std_dev_pumpWindow]; norm_num
  have hz : (((12004 / 100 : ℚ) : ℝ) - (mean pumpWindow : ℝ)) / std_dev pumpWindow
      = 501 / 250 := by
    rw [mean_pumpWindow, std_dev_pumpWindow]
    push_cast
    norm_num
  refine ⟨fun w p h1 h2 => calculate_anomaly_nondegenerate w p (by omega) h2, ?_⟩
  rw [calculate_anomaly_nondegenerate pumpWindow (12004 / 100) hlen hne, hz,
    mean_pumpWindow, if_pos (by norm_num : (501 : ℝ) / 250 > 2),
    round2_eval_2004, round2_hundred]

lemma round2_five_half : round2 ((5 : ℝ) / 2) = 5 / 2 := by
  simp only [round2]
  rw [show (100 : ℝ) * (5 / 2) = ((250 : ℤ) : ℝ) by norm_num, round_intCast]
  norm_num

/-- Witness for C5: the window with mean 100 and standard deviation 10 and
current price 125 give z = 2.5, status `PUMP_DETECTED`, reported z-score 2.5
and reported mean 100. -/
theorem zscore_compared_before_rounding_witness :
    20 ≤ pumpWindow.length ∧ std_dev pumpWindow ≠ 0 ∧
      calculate_anomaly pumpWindow 125 = ⟨"PUMP_DETECTED 🚀", 5 / 2, 100⟩ := by
  have hne : std_dev pumpWindow ≠ 0 := by rw [std_dev_pumpWindow]; norm_num
  have hz : (((125 : ℚ) : ℝ) - (mean pumpWindow : ℝ)) / std_dev pumpWindow
      = 5 / 2 := by
    rw [mean_pumpWindow, std_dev_pumpWindow]
    push_cast
    norm_num
  refine ⟨by decide, hne, ?_⟩
  rw [zscore_compared_before_rounding.1 pumpWindow 125 (by decide) hne, hz,
    mean_pumpWindow, if_pos (by norm_num : (5 : ℝ) / 2 > 2),
    round2_five_half, round2_hundred]

/-- C6: with 20 or more prices whose population standard deviation is zero,
the classifier returns status `STABLE` with z-score 0 and the window mean as
`mean_price`, for every current price — the result does not depend on the
current price at all, so no division by the zero standard deviation takes
place. -/
theorem stable_when_stddev_zero (w : List ℚ) (p : ℚ)
    (hlen : 20 ≤ w.length) (hsd : std_dev w = 0) :
    calculate_anomaly w p = ⟨"STABLE", 0, (mean w : ℝ)⟩ := by
  unfold calculate_anomaly
  rw [if_neg (by omega), if_pos hsd]

lemma mean_flat : mean (List.replicate 20 (100 : ℚ)) = 100 := by
  rw [mean]
  simp only [List.sum_replicate, List.length_replicate, nsmul_eq_mul]
  push_cast
  norm_num

lemma variance_flat : variance (List.replicate 20 (100 : ℚ)) = 0 := by
  rw [variance, mean_flat]
  simp

lemma std_dev_flat : std_dev (List.replicate 20 (100 : ℚ)) = 0 := by
  rw [std_dev, variance_flat, Rat.cast_zero, Real.sqrt_zero]

/-- Witness for C6: a window of 20 entries all equal to 100 and current
price 300 yield status `STABLE`, not a division error. -/
theorem stable_when_stddev_zero_witness :
    20 ≤ (List.replicate 20 (100 : ℚ)).length ∧
      std_dev (List.replicate 20 (100 : ℚ)) = 0 ∧
      mean (List.replicate 20 (100 : ℚ)) = 100 ∧
      calculate_anomaly (List.replicate 20 (100 : ℚ)) 300 =
        ⟨"STABLE", 0, (mean (List.replicate 20 (100 : ℚ)) : ℝ)⟩ :=
  ⟨by simp, std_dev_flat, mean_flat,
    stable_when_stddev_zero _ _ (by simp) std_dev_flat⟩
